import Mathlib

/-!
# Verification of `src/context.c` (r-corpus)

`context.c` wraps a natively allocated payload in an R external pointer whose
finalizer releases it.  The four C functions `free_context`, `alloc_context`,
`is_context` and `as_context` are embedded below as state transformers over

* the host (R) object store: external pointers with their address, tag and
  protected value, the finalizer registry and the protection stack;
* the C heap: live blocks of bytes, handed out by `calloc`/`malloc` and
  released by `free`;
* a log of the externally visible effects of a call.

Undefined behaviour of C (a store outside a block, a read through `NULL`, a
double `free`) is a distinct outcome, `Outcome.fault`; the host's `error()`
(a non-local exit) is `Outcome.error`.
-/

namespace Context

/-! ## Values -/

/-- Data pointer of C: `none` is `NULL`, `some a` is the address of block `a`. -/
abbrev Ptr := Option Nat

/-- Function pointer of C (`void (*)(void *)`): `none` is `NULL`. -/
abbrev FnPtr := Option Nat

/-- The `SEXPTYPE`s the component distinguishes; every other type of host
value is `OTHER n` with its type code. -/
inductive SexpType where
  | NILSXP
  | SYMSXP
  | EXTPTRSXP
  | OTHER (code : Nat)
  deriving DecidableEq, Repr

/-- Host value (`SEXP`): `R_NilValue`, the interned symbol with a given print
name, or a reference to an object of the host store. -/
inductive SEXP where
  | nil
  | sym (name : String)
  | ref (id : Nat)
  deriving DecidableEq, Repr

/-- The host function `install(name)`: the unique symbol with this print name.
Interning makes two calls with the same name return the same `SEXP`. -/
def install (name : String) : SEXP := SEXP.sym name

/-- Line 23: `#define CONTEXT_TAG install("corpus::context")`. -/
def CONTEXT_TAG : SEXP := install "corpus::context"

/-- Object of the host store.  For an `EXTPTRSXP` the three slots are the
address, the tag and the protected value of the external pointer. -/
structure RObj where
  type : SexpType
  addr : Ptr
  tag : SEXP
  prot : SEXP
  deriving DecidableEq, Repr

/-- Values that a pointer-sized field can hold. -/
inductive Val where
  | data (p : Ptr)
  | func (f : FnPtr)
  deriving DecidableEq, Repr

/-- One byte of a heap block: not yet written (`malloc`), a plain byte, or the
`i`-th byte of the representation of a pointer value. -/
inductive MemVal where
  | undef
  | byte (b : Nat)
  | frag (v : Val) (i : Nat)
  deriving DecidableEq, Repr

/-- The C finalizers known to the model. -/
inductive CFinalizer where
  | free_context
  deriving DecidableEq, Repr

/-- Messages of the host's `error()` raised by the component:
`failed_allocating_memory n` is "failed allocating memory (n bytes)" and
`invalid_context_object` is "invalid 'context' object". -/
inductive RError where
  | failed_allocating_memory (bytes : Nat)
  | invalid_context_object
  deriving DecidableEq, Repr

/-- Undefined behaviour of the C program. -/
inductive Undefined where
  | null_deref
  | invalid_pointer (a : Nat)
  | out_of_bounds (a off len size : Nat)
  | indeterminate (a off : Nat)
  | bad_sexp (x : SEXP)
  deriving DecidableEq, Repr

/-- Externally visible effects, in the order they happen. -/
inductive Effect where
  | calloc (nmemb size : Nat) (ret : Ptr)
  | malloc (size : Nat) (ret : Ptr)
  | free (p : Ptr)
  | call (f : Nat) (arg : Ptr)
  | setAddr (x : SEXP) (p : Ptr)
  deriving DecidableEq, Repr

/-! ## State -/

/-- State of the host and of the C heap.  `oracle` holds the answers of the
allocator to the coming requests: `false` makes the next `calloc`/`malloc`
return `NULL`, `true` (or an exhausted oracle) makes it succeed. -/
structure State where
  objs : List RObj
  heap : List (Nat × List MemVal)
  oracle : List Bool
  finalizers : List (SEXP × CFinalizer × Bool)
  pstack : List SEXP
  deriving DecidableEq, Repr

/-- The state with no host object and no live block. -/
def State.init : State :=
  { objs := [], heap := [], oracle := [], finalizers := [], pstack := [] }

/-- Result of running a C function: normal return, `error()` of the host, or
undefined behaviour.  Each carries the effects performed so far. -/
inductive Outcome (α : Type) where
  | ok (a : α) (st : State) (log : List Effect)
  | error (e : RError) (st : State) (log : List Effect)
  | fault (u : Undefined) (log : List Effect)
  deriving DecidableEq, Repr

/-- Computations of the embedded C code. -/
def M (α : Type) : Type := State → Outcome α

/-- Return a value without touching the state. -/
def M.pure {α : Type} (a : α) : M α := fun st => Outcome.ok a st []

/-- The outcome `o` preceded by the effects `l`. -/
def Outcome.after {α : Type} (l : List Effect) (o : Outcome α) : Outcome α :=
  match o with
  | Outcome.ok a st l2 => Outcome.ok a st (l ++ l2)
  | Outcome.error e st l2 => Outcome.error e st (l ++ l2)
  | Outcome.fault u l2 => Outcome.fault u (l ++ l2)

/-- Sequencing: an `error` or a `fault` ends the computation. -/
def M.bind {α β : Type} (m : M α) (f : α → M β) : M β := fun st =>
  match m st with
  | Outcome.ok a st1 l1 => Outcome.after l1 (f a st1)
  | Outcome.error e st1 l1 => Outcome.error e st1 l1
  | Outcome.fault u l1 => Outcome.fault u l1

instance : Monad M where
  pure := M.pure
  bind := M.bind

/-- The host's `error(...)`: a non-local exit that never returns. -/
def error {α : Type} (e : RError) : M α := fun st => Outcome.error e st []

/-! ## The C heap -/

/-- Value of `sizeof(void *)` and `sizeof(void (*)(void *))` on the LP64 targets of the
package. -/
def ptrSize : Nat := 8

/-- Value of `offsetof(struct context, data)`, lines 26-29. -/
def offset_data : Nat := 0

/-- Value of `offsetof(struct context, destroy_func)`, lines 26-29. -/
def offset_destroy_func : Nat := 8

/-- Value of `sizeof(struct context)`: two pointer-sized members. -/
def sizeof_context : Nat := 16

/-- Representation of a pointer value: `ptrSize` fragments. -/
def encode (v : Val) : List MemVal :=
  [MemVal.frag v 0, MemVal.frag v 1, MemVal.frag v 2, MemVal.frag v 3,
   MemVal.frag v 4, MemVal.frag v 5, MemVal.frag v 6, MemVal.frag v 7]

/-- Bytes that hold all fragments of one pointer value, in order, decode to
that value; anything else is not a pointer value. -/
def decode (bs : List MemVal) : Option Val :=
  match bs with
  | MemVal.frag v 0 :: _ => if bs = encode v then some v else none
  | _ => none

/-- Overwrite `vals.length` bytes of `bs` from offset `off`. -/
def writeAt (bs : List MemVal) (off : Nat) (vals : List MemVal) : List MemVal :=
  bs.take off ++ vals ++ bs.drop (off + vals.length)

/-- The `len` bytes of `bs` from offset `off`. -/
def readAt (bs : List MemVal) (off len : Nat) : List MemVal :=
  (bs.drop off).take len

/-- An address above every live block. -/
def fresh (heap : List (Nat × List MemVal)) : Nat :=
  (heap.map Prod.fst).foldr max 0 + 1

/-- The live block at address `a`, if any. -/
def lookupBlock (heap : List (Nat × List MemVal)) (a : Nat) : Option (List MemVal) :=
  match heap with
  | [] => none
  | (k, b) :: rest => if k = a then some b else lookupBlock rest a

/-- Replace the contents of the live block at address `a`. -/
def updateBlock (heap : List (Nat × List MemVal)) (a : Nat) (b : List MemVal) :
    List (Nat × List MemVal) :=
  match heap with
  | [] => []
  | (k, old) :: rest =>
    if k = a then (k, b) :: rest else (k, old) :: updateBlock rest a b

/-- Remove the live block at address `a`. -/
def removeBlock (heap : List (Nat × List MemVal)) (a : Nat) : List (Nat × List MemVal) :=
  match heap with
  | [] => []
  | (k, b) :: rest => if k = a then rest else (k, b) :: removeBlock rest a

/-- Common part of `calloc` and `malloc`: the oracle decides whether the
request fails (`NULL`) or yields a new block with the given contents.  A
request of zero bytes is treated like any other: it returns `NULL` or a new
block of zero bytes, as the C standard allows. -/
def allocBlock (contents : List MemVal) (st : State) : Ptr × State :=
  if st.oracle.head? = some false then
    (none, { st with oracle := st.oracle.tail })
  else
    (some (fresh st.heap),
      { st with heap := (fresh st.heap, contents) :: st.heap, oracle := st.oracle.tail })

/-- The libc function `calloc(nmemb, size)`: `nmemb * size` zero bytes, or `NULL`. -/
def calloc (nmemb size : Nat) : M Ptr := fun st =>
  let r := allocBlock (List.replicate (nmemb * size) (MemVal.byte 0)) st
  Outcome.ok r.1 r.2 [Effect.calloc nmemb size r.1]

/-- The libc function `malloc(size)`: `size` bytes of indeterminate contents, or `NULL`. -/
def malloc (size : Nat) : M Ptr := fun st =>
  let r := allocBlock (List.replicate size MemVal.undef) st
  Outcome.ok r.1 r.2 [Effect.malloc size r.1]

/-- The libc function `free(p)`: nothing for `NULL`, releases a live block, and is undefined on
any other pointer (double free). -/
def free (p : Ptr) : M Unit := fun st =>
  match p with
  | none => Outcome.ok () st [Effect.free none]
  | some a =>
    match lookupBlock st.heap a with
    | none => Outcome.fault (Undefined.invalid_pointer a) []
    | some _ => Outcome.ok () { st with heap := removeBlock st.heap a } [Effect.free (some a)]

/-- Store of `vals` at `p + off`; undefined through `NULL`, through a pointer
to no live block, or outside the block. -/
def store (p : Ptr) (off : Nat) (vals : List MemVal) : M Unit := fun st =>
  match p with
  | none => Outcome.fault Undefined.null_deref []
  | some a =>
    match lookupBlock st.heap a with
    | none => Outcome.fault (Undefined.invalid_pointer a) []
    | some bs =>
      if off + vals.length ≤ bs.length then
        Outcome.ok () { st with heap := updateBlock st.heap a (writeAt bs off vals) } []
      else
        Outcome.fault (Undefined.out_of_bounds a off vals.length bs.length) []

/-- Load of a pointer-sized value from `p + off`; undefined through `NULL`,
through a pointer to no live block, outside the block, or when the bytes do
not hold a pointer value. -/
def load (p : Ptr) (off : Nat) : M Val := fun st =>
  match p with
  | none => Outcome.fault Undefined.null_deref []
  | some a =>
    match lookupBlock st.heap a with
    | none => Outcome.fault (Undefined.invalid_pointer a) []
    | some bs =>
      if off + ptrSize ≤ bs.length then
        match decode (readAt bs off ptrSize) with
        | some v => Outcome.ok v st []
        | none => Outcome.fault (Undefined.indeterminate a off) []
      else
        Outcome.fault (Undefined.out_of_bounds a off ptrSize bs.length) []

/-- Assignment `ctx->data = p`. -/
def set_data (ctx : Ptr) (p : Ptr) : M Unit :=
  store ctx offset_data (encode (Val.data p))

/-- Assignment `ctx->destroy_func = f`. -/
def set_destroy_func (ctx : Ptr) (f : FnPtr) : M Unit :=
  store ctx offset_destroy_func (encode (Val.func f))

/-- Read of `ctx->data`. -/
def get_data (ctx : Ptr) : M Ptr := fun st =>
  match load ctx offset_data st with
  | Outcome.ok (Val.data p) st1 l => Outcome.ok p st1 l
  | Outcome.ok (Val.func _) _ l =>
    Outcome.fault (Undefined.indeterminate (ctx.getD 0) offset_data) l
  | Outcome.error e st1 l => Outcome.error e st1 l
  | Outcome.fault u l => Outcome.fault u l

/-- Read of `ctx->destroy_func`. -/
def get_destroy_func (ctx : Ptr) : M FnPtr := fun st =>
  match load ctx offset_destroy_func st with
  | Outcome.ok (Val.func f) st1 l => Outcome.ok f st1 l
  | Outcome.ok (Val.data _) _ l =>
    Outcome.fault (Undefined.indeterminate (ctx.getD 0) offset_destroy_func) l
  | Outcome.error e st1 l => Outcome.error e st1 l
  | Outcome.fault u l => Outcome.fault u l

/-- Call `(f)(arg)` through a function pointer; undefined through `NULL`.  The
callee is code outside the component: the call is recorded as an effect and
leaves the modelled state as it is. -/
def call (f : FnPtr) (arg : Ptr) : M Unit := fun st =>
  match f with
  | none => Outcome.fault Undefined.null_deref []
  | some g => Outcome.ok () st [Effect.call g arg]

/-! ## The host API -/

/-- The host function `TYPEOF(x)`; undefined on a reference to no object. -/
def TYPEOF (x : SEXP) : M SexpType := fun st =>
  match x with
  | SEXP.nil => Outcome.ok SexpType.NILSXP st []
  | SEXP.sym _ => Outcome.ok SexpType.SYMSXP st []
  | SEXP.ref i =>
    match st.objs[i]? with
    | some o => Outcome.ok o.type st []
    | none => Outcome.fault (Undefined.bad_sexp x) []

/-- The external pointer object behind `x`, if `x` is one. -/
def extptr (st : State) (x : SEXP) : Option RObj :=
  match x with
  | SEXP.ref i =>
    match st.objs[i]? with
    | some o => if o.type = SexpType.EXTPTRSXP then some o else none
    | none => none
  | _ => none

/-- The host function `R_ExternalPtrTag(x)`; undefined when `x` is no external pointer. -/
def R_ExternalPtrTag (x : SEXP) : M SEXP := fun st =>
  match extptr st x with
  | some o => Outcome.ok o.tag st []
  | none => Outcome.fault (Undefined.bad_sexp x) []

/-- The host function `R_ExternalPtrAddr(x)`; undefined when `x` is no external pointer. -/
def R_ExternalPtrAddr (x : SEXP) : M Ptr := fun st =>
  match extptr st x with
  | some o => Outcome.ok o.addr st []
  | none => Outcome.fault (Undefined.bad_sexp x) []

/-- The host function `R_SetExternalPtrAddr(x, p)`; undefined when `x` is no external pointer. -/
def R_SetExternalPtrAddr (x : SEXP) (p : Ptr) : M Unit := fun st =>
  match x, extptr st x with
  | SEXP.ref i, some o =>
    Outcome.ok () { st with objs := st.objs.set i { o with addr := p } } [Effect.setAddr x p]
  | _, _ => Outcome.fault (Undefined.bad_sexp x) []

/-- The host function `R_MakeExternalPtr(p, tag, prot)`: a new external pointer object.  The
host's own memory is not bounded in the model. -/
def R_MakeExternalPtr (p : Ptr) (tag prot : SEXP) : M SEXP := fun st =>
  Outcome.ok (SEXP.ref st.objs.length)
    { st with objs := st.objs ++ [{ type := SexpType.EXTPTRSXP, addr := p, tag := tag, prot := prot }] }
    []

/-- The host function `R_RegisterCFinalizerEx(s, fun, onexit)`: one more entry
of the finalizer registry. -/
def R_RegisterCFinalizerEx (s : SEXP) (f : CFinalizer) (onexit : Bool) : M Unit := fun st =>
  Outcome.ok () { st with finalizers := st.finalizers ++ [(s, f, onexit)] } []

/-- The host function `PROTECT(x)`: push on the protection stack. -/
def PROTECT (x : SEXP) : M Unit := fun st =>
  Outcome.ok () { st with pstack := x :: st.pstack } []

/-- The host function `UNPROTECT(n)`: pop `n` entries of the protection stack. -/
def UNPROTECT (n : Nat) : M Unit := fun st =>
  Outcome.ok () { st with pstack := st.pstack.drop n } []

/-! ## The component: `context.c` -/

/-- Lines 32-43, `void free_context(SEXP x)`. -/
def free_context (x : SEXP) : M Unit := do
  let ctx ← R_ExternalPtrAddr x
  R_SetExternalPtrAddr x none
  if ctx ≠ none then
    if (← get_destroy_func ctx) ≠ none then
      call (← get_destroy_func ctx) (← get_data ctx)
    free (← get_data ctx)
    free ctx

/-- Lines 46-72, `SEXP alloc_context(size_t size, void (*destroy_func)(void *))`. -/
def alloc_context (size : Nat) (destroy_func : FnPtr) : M SEXP := do
  let ans ← R_MakeExternalPtr none CONTEXT_TAG SEXP.nil
  PROTECT ans
  R_RegisterCFinalizerEx ans CFinalizer.free_context true
  let obj ← calloc 1 size
  if size ≠ 0 ∧ obj = none then
    error (RError.failed_allocating_memory size)
  let ctx ← malloc size
  if ctx = none then
    free obj
    error (RError.failed_allocating_memory sizeof_context)
  set_data ctx obj
  set_destroy_func ctx destroy_func
  R_SetExternalPtrAddr ans ctx
  UNPROTECT 1
  return ans

/-- Lines 75-79, `int is_context(SEXP x)`; `&&` evaluates its right operand
only when the left one holds. -/
def is_context (x : SEXP) : M Bool := do
  if (← TYPEOF x) = SexpType.EXTPTRSXP then
    return decide ((← R_ExternalPtrTag x) = CONTEXT_TAG)
  else
    return false

/-- Lines 82-92, `void *as_context(SEXP x)`. -/
def as_context (x : SEXP) : M Ptr := do
  if !(← is_context x) then
    error RError.invalid_context_object
  let ctx ← R_ExternalPtrAddr x
  get_data ctx


/-! ## Names for the parts of the state built by `alloc_context` -/

/-- The external pointer object made on line 52, holding address `p`. -/
def handleObj (p : Ptr) : RObj :=
  { type := SexpType.EXTPTRSXP, addr := p, tag := CONTEXT_TAG, prot := SEXP.nil }

/-- Address of the payload block that `calloc` hands out in state `st`. -/
def payloadAddr (st : State) : Nat := fresh st.heap

/-- Contents of the payload block: `size` zero bytes. -/
def payloadBlock (size : Nat) : List MemVal := List.replicate size (MemVal.byte 0)

/-- Address of the control block that `malloc` hands out after the payload. -/
def ctxAddr (size : Nat) (st : State) : Nat :=
  fresh ((payloadAddr st, payloadBlock size) :: st.heap)

/-- Contents of the control block after the assignments of lines 66-67. -/
def ctxBlock (size : Nat) (destroy_func : FnPtr) (st : State) : List MemVal :=
  writeAt (writeAt (List.replicate size MemVal.undef) offset_data
    (encode (Val.data (some (payloadAddr st))))) offset_destroy_func
    (encode (Val.func destroy_func))

/-- State in which a successful `alloc_context size destroy_func` started in
`st` returns. -/
def allocated (size : Nat) (destroy_func : FnPtr) (st : State) : State :=
  { objs := st.objs ++ [handleObj (some (ctxAddr size st))]
    heap := (ctxAddr size st, ctxBlock size destroy_func st) ::
      (payloadAddr st, payloadBlock size) :: st.heap
    oracle := st.oracle.tail.tail
    finalizers := st.finalizers ++ [(SEXP.ref st.objs.length, CFinalizer.free_context, true)]
    pstack := st.pstack }

/-- State left by `free_context` on the handle of `allocated size destroy_func st`:
the address of the handle is `NULL` and the heap is that of `st` again. -/
def released (st : State) : State :=
  { objs := st.objs ++ [handleObj none]
    heap := st.heap
    oracle := st.oracle.tail.tail
    finalizers := st.finalizers ++ [(SEXP.ref st.objs.length, CFinalizer.free_context, true)]
    pstack := st.pstack }

/-- State in which `alloc_context` started in `st` raises an error, `orc`
being what is left of the oracle: the handle made on line 52 is registered
and protected, its address is still `NULL`, and the heap is that of `st`. -/
def failed (st : State) (orc : List Bool) : State :=
  { objs := st.objs ++ [handleObj none]
    heap := st.heap
    oracle := orc
    finalizers := st.finalizers ++ [(SEXP.ref st.objs.length, CFinalizer.free_context, true)]
    pstack := SEXP.ref st.objs.length :: st.pstack }

/-- The callback invocations among the effects. -/
def calls (l : List Effect) : List (Nat × Ptr) :=
  l.filterMap fun e =>
    match e with
    | Effect.call f p => some (f, p)
    | _ => none

/-- The blocks released among the effects (`free(NULL)` releases nothing). -/
def frees (l : List Effect) : List Nat :=
  l.filterMap fun e =>
    match e with
    | Effect.free (some a) => some a
    | _ => none

/-- The blocks handed out by `calloc` and `malloc` among the effects. -/
def allocs (l : List Effect) : List Nat :=
  l.filterMap fun e =>
    match e with
    | Effect.calloc _ _ (some a) => some a
    | Effect.malloc _ (some a) => some a
    | _ => none

/-- The initial state with the allocator answering the coming requests by
`orc`. -/
def failing (orc : List Bool) : State :=
  { State.init with oracle := orc }

/-- Effect of the statement `if (ctx->destroy_func) (ctx->destroy_func)(ctx->data);`
for a control block holding `destroy_func` and the payload pointer `p`: one
call of the callback, or nothing when `destroy_func` is `NULL`. -/
def callbackEffects (destroy_func : FnPtr) (p : Ptr) : List Effect :=
  match destroy_func with
  | some f => [Effect.call f p]
  | none => []

/-- A state whose only object is an external pointer of another component,
tagged with the symbol `other::tag`. -/
def foreign : State :=
  { State.init with
    objs := [{ type := SexpType.EXTPTRSXP, addr := none, tag := install "other::tag",
               prot := SEXP.nil }] }

/-- The computation `m` leaves the host objects as they are when it returns. -/
def KeepsObjs {α : Type} (m : M α) : Prop :=
  ∀ st a st1 l, m st = Outcome.ok a st1 l → st1.objs = st.objs

/-! ## Evaluation lemmas -/

@[simp] theorem bind_apply {α β : Type} (m : M α) (f : α → M β) (st : State) :
    (m >>= f) st = M.bind m f st := rfl

@[simp] theorem pure_apply {α : Type} (a : α) (st : State) :
    (pure a : M α) st = Outcome.ok a st [] := rfl

@[simp] theorem after_ok {α : Type} (l l2 : List Effect) (a : α) (st : State) :
    Outcome.after l (Outcome.ok a st l2) = Outcome.ok a st (l ++ l2) := rfl

@[simp] theorem after_error {α : Type} (l l2 : List Effect) (e : RError) (st : State) :
    Outcome.after l (Outcome.error e st l2 : Outcome α) = Outcome.error e st (l ++ l2) := rfl

@[simp] theorem after_fault {α : Type} (l l2 : List Effect) (u : Undefined) :
    Outcome.after l (Outcome.fault u l2 : Outcome α) = Outcome.fault u (l ++ l2) := rfl

@[simp] theorem encode_length (v : Val) : (encode v).length = 8 := rfl

theorem decode_encode (v : Val) : decode (encode v) = some v := by
  simp [decode, encode]

theorem length_writeAt (bs vals : List MemVal) (off : Nat) (h : off + vals.length ≤ bs.length) :
    (writeAt bs off vals).length = bs.length := by
  simp [writeAt]
  omega

theorem readAt_writeAt_same (bs vals : List MemVal) (off : Nat) (h : off ≤ bs.length) :
    readAt (writeAt bs off vals) off vals.length = vals := by
  simp [readAt, writeAt, List.drop_append_eq_append_drop, List.length_take, Nat.min_eq_left h]

theorem readAt_writeAt_below (bs vals : List MemVal) (off off2 len : Nat)
    (h : off2 + len ≤ off) (hb : off ≤ bs.length) :
    readAt (writeAt bs off vals) off2 len = readAt bs off2 len := by
  unfold readAt writeAt
  rw [List.append_assoc, List.drop_append_of_le_length (by simp; omega),
    List.take_append_of_le_length (by simp; omega), List.drop_take, List.take_take]
  congr 1
  omega

theorem fresh_cons_ne (a : Nat) (b : List MemVal) (heap : List (Nat × List MemVal)) :
    fresh ((a, b) :: heap) ≠ a := by
  simp [fresh]
  omega


theorem alloc_context_ok_inv {size : Nat} {df : FnPtr} {st s0 : State} {x : SEXP}
    {l : List Effect} (h : alloc_context size df st = Outcome.ok x s0 l) :
    sizeof_context ≤ size ∧ x = SEXP.ref st.objs.length ∧ s0 = allocated size df st ∧
      l = [Effect.calloc 1 size (some (payloadAddr st)),
        Effect.malloc size (some (ctxAddr size st)),
        Effect.setAddr (SEXP.ref st.objs.length) (some (ctxAddr size st))] := by
  obtain ⟨objs, heap, oracle, fin, ps⟩ := st
  by_cases hs : 16 ≤ size
  · have h8 : 8 ≤ size := by omega
    have h0 : size ≠ 0 := by omega
    rcases oracle with _ | ⟨_ | _, _ | ⟨_ | _, r⟩⟩ <;>
    simp [alloc_context, M.bind, R_MakeExternalPtr, PROTECT, R_RegisterCFinalizerEx, calloc, malloc,
      allocBlock, error, set_data, set_destroy_func, store, lookupBlock, h8, hs, h0, offset_data,
      offset_destroy_func, updateBlock, R_SetExternalPtrAddr, UNPROTECT, extptr, free,
      length_writeAt] at h
    all_goals
      obtain ⟨rfl, rfl, rfl⟩ := h
      exact ⟨hs, rfl, rfl, rfl⟩
  · exfalso
    by_cases h8 : 8 ≤ size
    · have h0 : size ≠ 0 := by omega
      rcases oracle with _ | ⟨_ | _, _ | ⟨_ | _, r⟩⟩ <;>
      simp [alloc_context, M.bind, R_MakeExternalPtr, PROTECT, R_RegisterCFinalizerEx, calloc,
        malloc, allocBlock, error, set_data, set_destroy_func, store, lookupBlock, h8, hs, h0,
        offset_data, offset_destroy_func, updateBlock, free, length_writeAt] at h
    · rcases oracle with _ | ⟨_ | _, _ | ⟨_ | _, r⟩⟩ <;> by_cases h0 : size = 0 <;>
      simp [alloc_context, M.bind, R_MakeExternalPtr, PROTECT, R_RegisterCFinalizerEx, calloc,
        malloc, allocBlock, error, set_data, store, lookupBlock, h8, h0,
        offset_data, free] at h

/-- With both requests granted and a payload at least as large as
`struct context`, `alloc_context` returns. -/
theorem alloc_context_ok (size : Nat) (df : FnPtr) (st : State)
    (hs : sizeof_context ≤ size) (h1 : st.oracle.head? ≠ some false)
    (h2 : st.oracle.tail.head? ≠ some false) :
    alloc_context size df st = Outcome.ok (SEXP.ref st.objs.length) (allocated size df st)
      [Effect.calloc 1 size (some (payloadAddr st)),
        Effect.malloc size (some (ctxAddr size st)),
        Effect.setAddr (SEXP.ref st.objs.length) (some (ctxAddr size st))] := by
  obtain ⟨objs, heap, oracle, fin, ps⟩ := st
  unfold sizeof_context at hs
  have h8 : 8 ≤ size := by omega
  have h0 : size ≠ 0 := by omega
  rcases oracle with _ | ⟨_ | _, _ | ⟨_ | _, r⟩⟩ <;> simp at h1 h2 <;>
  simp [alloc_context, M.bind, R_MakeExternalPtr, PROTECT, R_RegisterCFinalizerEx, calloc, malloc,
    allocBlock, error, set_data, set_destroy_func, store, lookupBlock, h8, hs, h0, offset_data,
    offset_destroy_func, updateBlock, R_SetExternalPtrAddr, UNPROTECT, extptr, free,
    length_writeAt, allocated, handleObj, payloadAddr, ctxAddr, ctxBlock, payloadBlock]

theorem set_of_getElem? {α : Type} (l : List α) (i : Nat) (a : α) (h : l[i]? = some a) :
    l.set i a = l := by
  induction l generalizing i with
  | nil => simp
  | cons x xs ih =>
    cases i with
    | zero => simp at h; simp [h]
    | succ j => simp at h; simp [ih j h]

theorem extptr_type {st : State} {x : SEXP} {o : RObj} (h : extptr st x = some o) :
    ∃ i, x = SEXP.ref i ∧ st.objs[i]? = some o ∧ o.type = SexpType.EXTPTRSXP := by
  cases x with
  | nil => simp [extptr] at h
  | sym n => simp [extptr] at h
  | ref i =>
    refine ⟨i, rfl, ?_⟩
    simp only [extptr] at h
    split at h
    · rename_i o2 ho
      split at h
      · simp at h; subst h; exact ⟨ho, by assumption⟩
      · simp at h
    · simp at h

/-- On an external pointer whose address is already `NULL`, `free_context`
writes `NULL` again and does nothing else. -/
theorem free_context_null (st : State) (x : SEXP) (o : RObj) (h : extptr st x = some o)
    (ha : o.addr = none) :
    free_context x st = Outcome.ok () st [Effect.setAddr x none] := by
  obtain ⟨i, rfl, hi, _⟩ := extptr_type h
  have hset : st.objs.set i { o with addr := none } = st.objs := by
    have : ({ o with addr := none } : RObj) = o := by cases o; simp_all
    rw [this]; exact set_of_getElem? _ _ _ hi
  simp [free_context, M.bind, R_ExternalPtrAddr, R_SetExternalPtrAddr, h, ha, hset]

theorem extptr_allocated (size : Nat) (df : FnPtr) (st : State) :
    extptr (allocated size df st) (SEXP.ref st.objs.length) =
      some (handleObj (some (ctxAddr size st))) := by
  simp [extptr, allocated, handleObj]

theorem extptr_released (st : State) :
    extptr (released st) (SEXP.ref st.objs.length) = some (handleObj none) := by
  simp [extptr, released, handleObj]

theorem inner_length (size : Nat) (v : Val) (hs : 8 ≤ size) :
    (writeAt (List.replicate size MemVal.undef) 0 (encode v)).length = size := by
  rw [length_writeAt] <;> simp
  omega

theorem ctxBlock_length (size : Nat) (df : FnPtr) (st : State) (hs : 16 ≤ size) :
    (ctxBlock size df st).length = size := by
  unfold ctxBlock offset_data offset_destroy_func
  rw [length_writeAt, inner_length _ _ (by omega)]
  rw [inner_length _ _ (by omega)]
  simp
  omega

theorem get_data_ctx {s : State} {c : Nat} (size : Nat) (df : FnPtr) (st : State)
    (hl : lookupBlock s.heap c = some (ctxBlock size df st)) (hs : sizeof_context ≤ size) :
    get_data (some c) s = Outcome.ok (some (payloadAddr st)) s [] := by
  unfold sizeof_context at hs
  have h1 : readAt (ctxBlock size df st) 0 8 = encode (Val.data (some (payloadAddr st))) := by
    unfold ctxBlock offset_data offset_destroy_func
    rw [readAt_writeAt_below _ _ 8 0 8 (by omega) (by rw [inner_length _ _ (by omega)]; omega)]
    exact readAt_writeAt_same _ (encode (Val.data (some (payloadAddr st)))) 0 (by simp)
  have h2 := ctxBlock_length size df st hs
  have h3 : 8 ≤ size := by omega
  simp [get_data, load, hl, offset_data, ptrSize, h1, h2, h3, decode_encode]

theorem get_destroy_func_ctx {s : State} {c : Nat} (size : Nat) (df : FnPtr) (st : State)
    (hl : lookupBlock s.heap c = some (ctxBlock size df st)) (hs : sizeof_context ≤ size) :
    get_destroy_func (some c) s = Outcome.ok df s [] := by
  unfold sizeof_context at hs
  have h1 : readAt (ctxBlock size df st) 8 8 = encode (Val.func df) := by
    unfold ctxBlock offset_data offset_destroy_func
    exact readAt_writeAt_same _ (encode (Val.func df)) 8 (by rw [inner_length _ _ (by omega)]; omega)
  have h2 := ctxBlock_length size df st hs
  simp [get_destroy_func, load, hl, offset_destroy_func, ptrSize, h1, h2, decode_encode, hs]

/-- First `free_context` on the handle of a successful `alloc_context`. -/
theorem free_context_allocated (size : Nat) (df : FnPtr) (st : State)
    (hs : sizeof_context ≤ size) :
    free_context (SEXP.ref st.objs.length) (allocated size df st) =
      Outcome.ok () (released st)
        ([Effect.setAddr (SEXP.ref st.objs.length) none] ++
          callbackEffects df (some (payloadAddr st)) ++
          [Effect.free (some (payloadAddr st)), Effect.free (some (ctxAddr size st))]) := by
  have hne : ctxAddr size st ≠ payloadAddr st := fresh_cons_ne _ _ _
  have s1 : R_ExternalPtrAddr (SEXP.ref st.objs.length) (allocated size df st) =
      Outcome.ok (some (ctxAddr size st)) (allocated size df st) [] := by
    simp [R_ExternalPtrAddr, extptr_allocated, handleObj]
  have s2 : R_SetExternalPtrAddr (SEXP.ref st.objs.length) none (allocated size df st) =
      Outcome.ok () { allocated size df st with objs := st.objs ++ [handleObj none] }
        [Effect.setAddr (SEXP.ref st.objs.length) none] := by
    simp [R_SetExternalPtrAddr, extptr_allocated]
    simp [allocated, handleObj]
  have hl : lookupBlock ({ allocated size df st with objs := st.objs ++ [handleObj none] } : State).heap
      (ctxAddr size st) = some (ctxBlock size df st) := by
    simp [allocated, lookupBlock]
  have s3 := get_destroy_func_ctx size df st hl hs
  have s4 := get_data_ctx size df st hl hs
  have s5 : free (some (payloadAddr st))
      { allocated size df st with objs := st.objs ++ [handleObj none] } =
      Outcome.ok () { released st with heap := (ctxAddr size st, ctxBlock size df st) :: st.heap }
        [Effect.free (some (payloadAddr st))] := by
    simp [free, allocated, lookupBlock, removeBlock, hne, released]
  have s6 : free (some (ctxAddr size st))
      { released st with heap := (ctxAddr size st, ctxBlock size df st) :: st.heap } =
      Outcome.ok () (released st) [Effect.free (some (ctxAddr size st))] := by
    simp [free, lookupBlock, removeBlock, released]
  cases df with
  | none =>
    simp [free_context, M.bind, s1, s2, s3, s4, s5, s6, callbackEffects]
  | some f =>
    simp [free_context, M.bind, s1, s2, s3, s4, s5, s6, call, callbackEffects]

/-- Value of `is_context` on an object of the host store. -/
theorem is_context_obj (st : State) (i : Nat) (o : RObj) (h : st.objs[i]? = some o) :
    is_context (SEXP.ref i) st =
      Outcome.ok (decide (o.type = SexpType.EXTPTRSXP ∧ o.tag = CONTEXT_TAG)) st [] := by
  by_cases ht : o.type = SexpType.EXTPTRSXP
  · simp [is_context, M.bind, TYPEOF, R_ExternalPtrTag, extptr, h, ht]
  · simp [is_context, M.bind, TYPEOF, h, ht]

/-- On the handle of a successful `alloc_context`, `is_context` holds. -/
theorem is_context_allocated (size : Nat) (df : FnPtr) (st : State) :
    is_context (SEXP.ref st.objs.length) (allocated size df st) =
      Outcome.ok true (allocated size df st) [] := by
  rw [is_context_obj _ _ (handleObj (some (ctxAddr size st))) (by simp [allocated])]
  simp [handleObj]

/-- Finalization leaves type and tag of the handle as they are. -/
theorem is_context_released (st : State) :
    is_context (SEXP.ref st.objs.length) (released st) = Outcome.ok true (released st) [] := by
  rw [is_context_obj _ _ (handleObj none) (by simp [released])]
  simp [handleObj]

theorem as_context_released (st : State) :
    as_context (SEXP.ref st.objs.length) (released st) =
      Outcome.fault Undefined.null_deref [] := by
  simp [as_context, M.bind, is_context_released, R_ExternalPtrAddr, extptr_released, handleObj,
    get_data, load]

theorem alloc_context_error_inv {size : Nat} {df : FnPtr} {st s1 : State} {e : RError}
    {l : List Effect} (h : alloc_context size df st = Outcome.error e s1 l) :
    ∃ orc, s1 = failed st orc ∧
      ((e = RError.failed_allocating_memory size ∧ l = [Effect.calloc 1 size none]) ∨
       (e = RError.failed_allocating_memory sizeof_context ∧
          ∃ obj, l = [Effect.calloc 1 size obj, Effect.malloc size none, Effect.free obj])) := by
  obtain ⟨objs, heap, oracle, fin, ps⟩ := st
  by_cases h0 : size = 0
  · subst h0
    rcases oracle with _ | ⟨_ | _, _ | ⟨_ | _, r⟩⟩ <;>
    simp [alloc_context, M.bind, R_MakeExternalPtr, PROTECT, R_RegisterCFinalizerEx, calloc,
      malloc, allocBlock, error, set_data, store, lookupBlock,
      offset_data, free, removeBlock] at h
    all_goals
      obtain ⟨rfl, rfl, rfl⟩ := h
      exact ⟨_, rfl, Or.inr ⟨rfl, _, rfl⟩⟩
  · by_cases h8 : 8 ≤ size
    · by_cases hs : 16 ≤ size
      · rcases oracle with _ | ⟨_ | _, _ | ⟨_ | _, r⟩⟩ <;>
        simp [alloc_context, M.bind, R_MakeExternalPtr, PROTECT, R_RegisterCFinalizerEx, calloc,
          malloc, allocBlock, error, set_data, set_destroy_func, store, lookupBlock, h8, hs, h0,
          offset_data, offset_destroy_func, updateBlock, R_SetExternalPtrAddr, UNPROTECT, extptr,
          free, length_writeAt, removeBlock] at h
        all_goals
          obtain ⟨rfl, rfl, rfl⟩ := h
          first
            | exact ⟨_, rfl, Or.inl ⟨rfl, rfl⟩⟩
            | exact ⟨_, rfl, Or.inr ⟨rfl, _, rfl⟩⟩
      · rcases oracle with _ | ⟨_ | _, _ | ⟨_ | _, r⟩⟩ <;>
        simp [alloc_context, M.bind, R_MakeExternalPtr, PROTECT, R_RegisterCFinalizerEx, calloc,
          malloc, allocBlock, error, set_data, set_destroy_func, store, lookupBlock, h8, hs, h0,
          offset_data, offset_destroy_func, updateBlock, free, length_writeAt, removeBlock] at h
        all_goals
          obtain ⟨rfl, rfl, rfl⟩ := h
          first
            | exact ⟨_, rfl, Or.inl ⟨rfl, rfl⟩⟩
            | exact ⟨_, rfl, Or.inr ⟨rfl, _, rfl⟩⟩
    · rcases oracle with _ | ⟨_ | _, _ | ⟨_ | _, r⟩⟩ <;>
      simp [alloc_context, M.bind, R_MakeExternalPtr, PROTECT, R_RegisterCFinalizerEx, calloc,
        malloc, allocBlock, error, set_data, store, lookupBlock, h8, h0,
        offset_data, free, removeBlock] at h
      all_goals
        obtain ⟨rfl, rfl, rfl⟩ := h
        first
          | exact ⟨_, rfl, Or.inl ⟨rfl, rfl⟩⟩
          | exact ⟨_, rfl, Or.inr ⟨rfl, _, rfl⟩⟩

theorem extptr_failed (st : State) (orc : List Bool) :
    extptr (failed st orc) (SEXP.ref st.objs.length) = some (handleObj none) := by
  simp [extptr, failed, handleObj]


theorem R_ExternalPtrAddr_no_error (x : SEXP) (st : State) (e : RError) (s : State)
    (l : List Effect) : R_ExternalPtrAddr x st ≠ Outcome.error e s l := by
  unfold R_ExternalPtrAddr
  split <;> simp

theorem load_no_error (p : Ptr) (off : Nat) (st : State) (e : RError) (s : State)
    (l : List Effect) : load p off st ≠ Outcome.error e s l := by
  unfold load
  repeat' split
  all_goals simp

theorem get_data_no_error (p : Ptr) (st : State) (e : RError) (s : State)
    (l : List Effect) : get_data p st ≠ Outcome.error e s l := by
  unfold get_data
  split
  · simp
  · simp
  · rename_i h
    exact absurd h (load_no_error _ _ _ _ _ _)
  · simp

theorem keepsObjs_pure {α : Type} (a : α) : KeepsObjs (pure a : M α) := by
  intro st b st1 l h
  simp at h
  rw [← h.2.1]

theorem keepsObjs_bind {α β : Type} (m : M α) (f : α → M β) (hm : KeepsObjs m)
    (hf : ∀ a, KeepsObjs (f a)) : KeepsObjs (m >>= f) := by
  intro st b st2 l h
  simp only [bind_apply, M.bind] at h
  cases h1 : m st with
  | ok a st1 l1 =>
    rw [h1] at h
    cases h2 : f a st1 with
    | ok b2 st3 l3 =>
      simp [h2] at h
      obtain ⟨_, rfl, _⟩ := h
      rw [hf a st1 b2 st3 l3 h2, hm st a st1 l1 h1]
    | error e st3 l3 => simp [h2] at h
    | fault u l3 => simp [h2] at h
  | error e st1 l1 => simp [h1] at h
  | fault u l1 => simp [h1] at h

theorem keepsObjs_load (p : Ptr) (off : Nat) : KeepsObjs (load p off) := by
  intro st a st1 l h
  unfold load at h
  repeat' split at h
  all_goals simp at h
  rw [← h.2.1]

theorem keepsObjs_get_data (p : Ptr) : KeepsObjs (get_data p) := by
  intro st a st1 l h
  unfold get_data at h
  split at h
  · rename_i hl
    simp at h
    rw [← h.2.1]
    exact keepsObjs_load _ _ _ _ _ _ hl
  all_goals simp at h

theorem keepsObjs_get_destroy_func (p : Ptr) : KeepsObjs (get_destroy_func p) := by
  intro st a st1 l h
  unfold get_destroy_func at h
  split at h
  · rename_i hl
    simp at h
    rw [← h.2.1]
    exact keepsObjs_load _ _ _ _ _ _ hl
  all_goals simp at h

theorem keepsObjs_call (f : FnPtr) (p : Ptr) : KeepsObjs (call f p) := by
  intro st a st1 l h
  unfold call at h
  split at h <;> simp at h
  rw [← h.1]

theorem keepsObjs_free (p : Ptr) : KeepsObjs (free p) := by
  intro st a st1 l h
  unfold free at h
  repeat' split at h
  all_goals simp at h
  · rw [← h.1]
  · rw [← h.1]

/-- What `free_context` does to the host objects when it returns: `x` is an
external pointer and its address has become `NULL`. -/
theorem free_context_objs {x : SEXP} {s s1 : State} {l : List Effect}
    (h : free_context x s = Outcome.ok () s1 l) :
    ∃ o, extptr s x = some o ∧ extptr s1 x = some { o with addr := none } := by
  cases ho : extptr s x with
  | none => simp [free_context, M.bind, R_ExternalPtrAddr, ho] at h
  | some o =>
    obtain ⟨i, rfl, hi, ht⟩ := extptr_type ho
    refine ⟨o, rfl, ?_⟩
    have hk : ∀ ctx : Ptr, KeepsObjs (
        if ctx ≠ none then do
          if (← get_destroy_func ctx) ≠ none then
            call (← get_destroy_func ctx) (← get_data ctx)
          free (← get_data ctx)
          free ctx
        else pure PUnit.unit : M Unit) := by
      intro ctx
      split
      · apply keepsObjs_bind _ _ (keepsObjs_get_destroy_func _)
        intro d
        split
        · apply keepsObjs_bind _ _ (keepsObjs_get_destroy_func _)
          intro f
          apply keepsObjs_bind _ _ (keepsObjs_get_data _)
          intro a
          apply keepsObjs_bind _ _ (keepsObjs_call _ _)
          intro _
          apply keepsObjs_bind _ _ (keepsObjs_get_data _)
          intro a2
          apply keepsObjs_bind _ _ (keepsObjs_free _)
          intro _
          exact keepsObjs_free _
        · apply keepsObjs_bind _ _ (keepsObjs_pure _)
          intro _
          apply keepsObjs_bind _ _ (keepsObjs_get_data _)
          intro a2
          apply keepsObjs_bind _ _ (keepsObjs_free _)
          intro _
          exact keepsObjs_free _
      · exact keepsObjs_pure _
    have hset : R_SetExternalPtrAddr (SEXP.ref i) none s =
        Outcome.ok () { s with objs := s.objs.set i { o with addr := none } }
          [Effect.setAddr (SEXP.ref i) none] := by
      simp [R_SetExternalPtrAddr, ho]
    have haddr : R_ExternalPtrAddr (SEXP.ref i) s = Outcome.ok o.addr s [] := by
      simp [R_ExternalPtrAddr, ho]
    simp only [free_context, bind_apply, M.bind, haddr, hset, after_ok] at h
    generalize hr : (if o.addr ≠ none then do
          if (← get_destroy_func o.addr) ≠ none then
            call (← get_destroy_func o.addr) (← get_data o.addr)
          free (← get_data o.addr)
          free o.addr
        else pure PUnit.unit : M Unit)
        { s with objs := s.objs.set i { o with addr := none } } = r at h
    cases r with
    | ok a s2 l2 =>
      simp at h
      obtain ⟨rfl, _⟩ := h
      have hobjs := hk o.addr _ _ _ _ hr
      have hlt : i < s.objs.length := by
        rcases Nat.lt_or_ge i s.objs.length with hlt | hge
        · exact hlt
        · rw [List.getElem?_eq_none hge] at hi
          cases hi
      simp [extptr, hobjs, List.getElem?_set, hlt, ht]
    | error e s2 l2 => simp at h
    | fault u l2 => simp at h

/-- After a `free_context` that returned, one more `free_context` on the same
value only writes `NULL` again. -/
theorem free_context_again {x : SEXP} {s s1 : State} {l : List Effect}
    (h : free_context x s = Outcome.ok () s1 l) :
    free_context x s1 = Outcome.ok () s1 [Effect.setAddr x none] := by
  obtain ⟨o, _, h1⟩ := free_context_objs h
  exact free_context_null s1 x _ h1 rfl

/-- Value of `is_context` on a host value of type `t`: the state is unchanged,
nothing is logged, and the result is the conjunction of line 77-78. -/
theorem is_context_value (st : State) (x : SEXP) (t : SexpType)
    (hx : TYPEOF x st = Outcome.ok t st []) :
    is_context x st =
      Outcome.ok (decide (t = SexpType.EXTPTRSXP ∧
        R_ExternalPtrTag x st = Outcome.ok CONTEXT_TAG st [])) st [] := by
  cases x with
  | nil =>
    simp [TYPEOF] at hx
    subst hx
    simp [is_context, M.bind, TYPEOF]
  | sym n =>
    simp [TYPEOF] at hx
    subst hx
    simp [is_context, M.bind, TYPEOF]
  | ref i =>
    cases ho : st.objs[i]? with
    | none => simp [TYPEOF, ho] at hx
    | some o =>
      simp [TYPEOF, ho] at hx
      subst hx
      rw [is_context_obj st i o ho]
      by_cases ht : o.type = SexpType.EXTPTRSXP
      · simp [R_ExternalPtrTag, extptr, ho, ht]
      · simp [ht]

/-- On every call of `alloc_context` that returns, the handle satisfies
`is_context` in the state of the return. -/
theorem is_context_of_alloc_context {size : Nat} {df : FnPtr} {st s0 : State} {h : SEXP}
    {l : List Effect} (ha : alloc_context size df st = Outcome.ok h s0 l) :
    is_context h s0 = Outcome.ok true s0 [] := by
  obtain ⟨_, rfl, rfl, rfl⟩ := alloc_context_ok_inv ha
  exact is_context_allocated size df st

/-- A payload smaller than `struct context` never makes `alloc_context`
return: the control block is requested with the payload size (line 61). -/
theorem alloc_context_small_never_ok (size : Nat) (df : FnPtr) (st s0 : State) (h : SEXP)
    (l : List Effect) (hs : size < sizeof_context) :
    alloc_context size df st ≠ Outcome.ok h s0 l := by
  intro ha
  have h16 := (alloc_context_ok_inv ha).1
  omega

/-! ## The claims -/

/-- C1: on a handle `h` returned by a successful `alloc_context`, the first
`free_context` returns normally, and a second `free_context` on the state it
leaves returns with that very state: it finds the stored address `NULL`, writes
`NULL` again and does nothing else.  Over the two calls the callback is invoked
at most once and no block is released twice.  The same holds in whatever later
state the first `free_context h` runs and returns. -/
theorem free_context_idempotent (size : Nat) (df : FnPtr) (st s0 : State) (h : SEXP)
    (l : List Effect) (ha : alloc_context size df st = Outcome.ok h s0 l) :
    (∃ s1 l1, free_context h s0 = Outcome.ok () s1 l1 ∧
      R_ExternalPtrAddr h s1 = Outcome.ok none s1 [] ∧
      free_context h s1 = Outcome.ok () s1 [Effect.setAddr h none] ∧
      (calls (l1 ++ [Effect.setAddr h none])).length ≤ 1 ∧
      (frees (l1 ++ [Effect.setAddr h none])).Nodup) ∧
    (∀ s s1 l1, free_context h s = Outcome.ok () s1 l1 →
      free_context h s1 = Outcome.ok () s1 [Effect.setAddr h none]) := by
  obtain ⟨hs, rfl, rfl, rfl⟩ := alloc_context_ok_inv ha
  have hne : payloadAddr st ≠ ctxAddr size st := fun e => fresh_cons_ne _ _ _ e.symm
  refine ⟨⟨released st, _, free_context_allocated size df st hs, ?_,
    free_context_null _ _ _ (extptr_released st) rfl, ?_, ?_⟩, fun s s1 l1 hf =>
      free_context_again hf⟩
  · simp [R_ExternalPtrAddr, extptr_released, handleObj]
  · cases df <;> simp [calls, callbackEffects]
  · cases df <;> simp [frees, hne, callbackEffects]

/-- Witness of C1: a 16-byte payload with callback `7`, from the initial state. -/
theorem free_context_idempotent_witness :
    alloc_context 16 (some 7) State.init =
        Outcome.ok (SEXP.ref 0) (allocated 16 (some 7) State.init)
          [Effect.calloc 1 16 (some 1), Effect.malloc 16 (some 2),
            Effect.setAddr (SEXP.ref 0) (some 2)] ∧
      ((∃ s1 l1, free_context (SEXP.ref 0) (allocated 16 (some 7) State.init) =
            Outcome.ok () s1 l1 ∧
          R_ExternalPtrAddr (SEXP.ref 0) s1 = Outcome.ok none s1 [] ∧
          free_context (SEXP.ref 0) s1 = Outcome.ok () s1 [Effect.setAddr (SEXP.ref 0) none] ∧
          (calls (l1 ++ [Effect.setAddr (SEXP.ref 0) none])).length ≤ 1 ∧
          (frees (l1 ++ [Effect.setAddr (SEXP.ref 0) none])).Nodup) ∧
        (∀ s s1 l1, free_context (SEXP.ref 0) s = Outcome.ok () s1 l1 →
          free_context (SEXP.ref 0) s1 =
            Outcome.ok () s1 [Effect.setAddr (SEXP.ref 0) none])) :=
  ⟨by rfl, free_context_idempotent 16 (some 7) State.init _ (SEXP.ref 0) _ (by rfl)⟩

/-- C2: on a host value `x` of type `t`, `is_context` returns without changing
the state and without effect, and its result is true exactly when `t` is
`EXTPTRSXP` and the tag of `x` is `CONTEXT_TAG`. -/
theorem is_context_iff (st : State) (x : SEXP) (t : SexpType)
    (hx : TYPEOF x st = Outcome.ok t st []) :
    ∃ b, is_context x st = Outcome.ok b st [] ∧
      (b = true ↔ t = SexpType.EXTPTRSXP ∧
        R_ExternalPtrTag x st = Outcome.ok CONTEXT_TAG st []) := by
  refine ⟨_, is_context_value st x t hx, ?_⟩
  exact decide_eq_true_iff

/-- Witness of C2: the handle of a fresh 16-byte context. -/
theorem is_context_iff_witness :
    TYPEOF (SEXP.ref 0) (allocated 16 none State.init) =
        Outcome.ok SexpType.EXTPTRSXP (allocated 16 none State.init) [] ∧
      ∃ b, is_context (SEXP.ref 0) (allocated 16 none State.init) =
          Outcome.ok b (allocated 16 none State.init) [] ∧
        (b = true ↔ SexpType.EXTPTRSXP = SexpType.EXTPTRSXP ∧
          R_ExternalPtrTag (SEXP.ref 0) (allocated 16 none State.init) =
            Outcome.ok CONTEXT_TAG (allocated 16 none State.init) []) :=
  ⟨by rfl, is_context_iff (allocated 16 none State.init) (SEXP.ref 0) SexpType.EXTPTRSXP (by rfl)⟩

/-- C3: on a host value `x` that is no external pointer or carries another
tag, `is_context` is false and `as_context` raises "invalid 'context' object"
with the state unchanged and no effect, whatever the heap holds; and whenever
`as_context` raises an error, it is that one and `is_context` is false. -/
theorem as_context_invalid (st : State) (x : SEXP) (t : SexpType)
    (hx : TYPEOF x st = Outcome.ok t st []) :
    (¬ (t = SexpType.EXTPTRSXP ∧ R_ExternalPtrTag x st = Outcome.ok CONTEXT_TAG st []) →
        is_context x st = Outcome.ok false st [] ∧
        as_context x st = Outcome.error RError.invalid_context_object st []) ∧
      (is_context x st = Outcome.ok false st [] →
        as_context x st = Outcome.error RError.invalid_context_object st []) ∧
      (∀ e s l, as_context x st = Outcome.error e s l →
        e = RError.invalid_context_object ∧ is_context x st = Outcome.ok false st []) := by
  obtain ⟨b, hb, hiff⟩ : ∃ b, is_context x st = Outcome.ok b st [] ∧
      (b = true ↔ t = SexpType.EXTPTRSXP ∧
        R_ExternalPtrTag x st = Outcome.ok CONTEXT_TAG st []) :=
    ⟨_, is_context_value st x t hx, decide_eq_true_iff⟩
  have herr : is_context x st = Outcome.ok false st [] →
      as_context x st = Outcome.error RError.invalid_context_object st [] := by
    intro hf
    simp [as_context, M.bind, hf, error]
  refine ⟨?_, herr, ?_⟩
  · intro hn
    cases b with
    | false => exact ⟨hb, herr hb⟩
    | true => exact absurd (hiff.mp rfl) hn
  · intro e s l he
    cases b with
    | false =>
      rw [herr hb] at he
      injection he with h1 h2 h3
      exact ⟨h1.symm, hb⟩
    | true =>
      exfalso
      simp only [as_context, bind_apply, M.bind, hb, Bool.not_true, Bool.false_eq_true,
        if_false, pure_apply, after_ok] at he
      cases ha : R_ExternalPtrAddr x st with
      | ok p s2 l2 =>
        rw [ha] at he
        cases hg : get_data p s2 with
        | ok q s3 l3 => simp [hg] at he
        | error e3 s3 l3 => exact get_data_no_error _ _ _ _ _ hg
        | fault u l3 => simp [hg] at he
      | error e2 s2 l2 => exact R_ExternalPtrAddr_no_error _ _ _ _ _ ha
      | fault u l2 => simp [ha] at he

/-- Witness of C3: an external pointer that carries another tag. -/
theorem as_context_invalid_witness :
    TYPEOF (SEXP.ref 0) foreign = Outcome.ok SexpType.EXTPTRSXP foreign [] ∧
      ((¬ (SexpType.EXTPTRSXP = SexpType.EXTPTRSXP ∧
            R_ExternalPtrTag (SEXP.ref 0) foreign = Outcome.ok CONTEXT_TAG foreign []) →
          is_context (SEXP.ref 0) foreign = Outcome.ok false foreign [] ∧
          as_context (SEXP.ref 0) foreign =
            Outcome.error RError.invalid_context_object foreign []) ∧
        (is_context (SEXP.ref 0) foreign = Outcome.ok false foreign [] →
          as_context (SEXP.ref 0) foreign =
            Outcome.error RError.invalid_context_object foreign []) ∧
        (∀ e s l, as_context (SEXP.ref 0) foreign = Outcome.error e s l →
          e = RError.invalid_context_object ∧
            is_context (SEXP.ref 0) foreign = Outcome.ok false foreign [])) :=
  ⟨by rfl, as_context_invalid foreign (SEXP.ref 0) SexpType.EXTPTRSXP (by rfl)⟩

/-- C4 at the failing inputs: `alloc_context(8, f)` with both requests granted
asks for a control block of 8 bytes (line 61), and the assignment
`ctx->destroy_func = destroy_func` (8 bytes at offset 8) lands outside it, so
no handle is returned on which `is_context` could hold; the same happens at
size 15, and at size 0 with an allocator that answers `NULL` to zero-byte
requests the call raises "failed allocating memory (16 bytes)". -/
theorem alloc_context_small_no_handle :
    alloc_context 8 (some 7) State.init =
        Outcome.fault (Undefined.out_of_bounds 2 8 8 8)
          [Effect.calloc 1 8 (some 1), Effect.malloc 8 (some 2)] ∧
      alloc_context 15 none State.init =
        Outcome.fault (Undefined.out_of_bounds 2 8 8 15)
          [Effect.calloc 1 15 (some 1), Effect.malloc 15 (some 2)] ∧
      alloc_context 0 (some 7) (failing [false, false]) =
        Outcome.error (RError.failed_allocating_memory 16) (failed (failing [false, false]) [])
          [Effect.calloc 1 0 none, Effect.malloc 0 none, Effect.free none] := by
  refine ⟨?_, ?_, ?_⟩ <;> rfl

/-- C7: when `alloc_context` started in `st` raises an error, the error is
"failed allocating memory"; the live blocks are those of `st`, every block
handed out during the call having been released; the handle registered with
`free_context` as its finalizer holds the address `NULL`; and running
`free_context` on it afterwards only writes `NULL` again. -/
theorem alloc_context_failure (size : Nat) (df : FnPtr) (st s1 : State) (e : RError)
    (l : List Effect) (ha : alloc_context size df st = Outcome.error e s1 l) :
    (∃ n, e = RError.failed_allocating_memory n) ∧
      s1.heap = st.heap ∧ frees l = allocs l ∧
      s1.finalizers =
        st.finalizers ++ [(SEXP.ref st.objs.length, CFinalizer.free_context, true)] ∧
      R_ExternalPtrAddr (SEXP.ref st.objs.length) s1 = Outcome.ok none s1 [] ∧
      free_context (SEXP.ref st.objs.length) s1 =
        Outcome.ok () s1 [Effect.setAddr (SEXP.ref st.objs.length) none] := by
  obtain ⟨orc, rfl, hl⟩ := alloc_context_error_inv ha
  refine ⟨?_, rfl, ?_, rfl, ?_, free_context_null _ _ _ (extptr_failed st orc) rfl⟩
  · rcases hl with ⟨rfl, _⟩ | ⟨rfl, _⟩ <;> exact ⟨_, rfl⟩
  · rcases hl with ⟨_, rfl⟩ | ⟨_, obj, rfl⟩
    · simp [frees, allocs]
    · cases obj <;> simp [frees, allocs]
  · simp [R_ExternalPtrAddr, extptr_failed, handleObj]

/-- Witness of C7: the payload of 16 bytes is allocated, the control block is
not. -/
theorem alloc_context_failure_witness :
    alloc_context 16 none (failing [true, false]) =
        Outcome.error (RError.failed_allocating_memory 16) (failed (failing [true, false]) [])
          [Effect.calloc 1 16 (some 1), Effect.malloc 16 none, Effect.free (some 1)] ∧
      ((∃ n, RError.failed_allocating_memory 16 = RError.failed_allocating_memory n) ∧
        (failed (failing [true, false]) []).heap = (failing [true, false]).heap ∧
        frees [Effect.calloc 1 16 (some 1), Effect.malloc 16 none, Effect.free (some 1)] =
          allocs [Effect.calloc 1 16 (some 1), Effect.malloc 16 none, Effect.free (some 1)] ∧
        (failed (failing [true, false]) []).finalizers =
          (failing [true, false]).finalizers ++
            [(SEXP.ref (failing [true, false]).objs.length, CFinalizer.free_context, true)] ∧
        R_ExternalPtrAddr (SEXP.ref (failing [true, false]).objs.length)
            (failed (failing [true, false]) []) =
          Outcome.ok none (failed (failing [true, false]) []) [] ∧
        free_context (SEXP.ref (failing [true, false]).objs.length)
            (failed (failing [true, false]) []) =
          Outcome.ok () (failed (failing [true, false]) [])
            [Effect.setAddr (SEXP.ref (failing [true, false]).objs.length) none]) :=
  ⟨by rfl, alloc_context_failure 16 none (failing [true, false]) _ _ _ (by rfl)⟩

/-- C8 at the failing input: `alloc_context(0, NULL)` with an allocator that
returns `NULL` for a request of zero bytes raises "failed allocating memory
(16 bytes)", because the control block is requested with `malloc(size)`; with
an allocator that returns a block of zero bytes, the assignment `ctx->data =
obj` lands outside the control block. -/
theorem alloc_context_zero :
    alloc_context 0 none (failing [false, false]) =
        Outcome.error (RError.failed_allocating_memory 16) (failed (failing [false, false]) [])
          [Effect.calloc 1 0 none, Effect.malloc 0 none, Effect.free none] ∧
      alloc_context 0 none (failing [true, true]) =
        Outcome.fault (Undefined.out_of_bounds 2 0 8 0)
          [Effect.calloc 1 0 (some 1), Effect.malloc 0 (some 2)] := by
  constructor <;> rfl

/-- C9 at the failing input: after `alloc_context(16, NULL)` and `free_context`
on its handle, `is_context` still holds of the handle, and `as_context` reads
`ctx->data` through the `NULL` address instead of raising an error. -/
theorem as_context_after_free :
    alloc_context 16 none State.init =
        Outcome.ok (SEXP.ref 0) (allocated 16 none State.init)
          [Effect.calloc 1 16 (some 1), Effect.malloc 16 (some 2),
            Effect.setAddr (SEXP.ref 0) (some 2)] ∧
      free_context (SEXP.ref 0) (allocated 16 none State.init) =
        Outcome.ok () (released State.init)
          [Effect.setAddr (SEXP.ref 0) none, Effect.free (some 1), Effect.free (some 2)] ∧
      is_context (SEXP.ref 0) (released State.init) = Outcome.ok true (released State.init) [] ∧
      as_context (SEXP.ref 0) (released State.init) = Outcome.fault Undefined.null_deref [] := by
  refine ⟨?_, ?_, ?_, ?_⟩ <;> rfl

/-- C10 at the failing inputs: for a payload of 1 byte the control block is
requested with 1 byte and the assignment `ctx->data = obj` (8 bytes at offset
0) lands outside it; for a payload of 40 bytes the control block is requested
with 40 bytes.  The request follows the payload size and is not
`sizeof(struct context)`. -/
theorem alloc_context_ctx_request :
    alloc_context 1 none State.init =
        Outcome.fault (Undefined.out_of_bounds 2 0 8 1)
          [Effect.calloc 1 1 (some 1), Effect.malloc 1 (some 2)] ∧
      alloc_context 40 none State.init =
        Outcome.ok (SEXP.ref 0) (allocated 40 none State.init)
          [Effect.calloc 1 40 (some 1), Effect.malloc 40 (some 2),
            Effect.setAddr (SEXP.ref 0) (some 2)] ∧
      sizeof_context = 16 := by
  refine ⟨?_, ?_, ?_⟩ <;> rfl

end Context
